import Mathlib

/-
Verification of the PlexLastFMDocker webhook relay.

The repository contains two near-duplicate implementations of the same route:
a pages-router handler in src/pages/api/webhook.js and an app-router handler
in src/app/api/webhook/route.js.  Both share the helper functions
generateSecurePayload, sleep and lastFmHook.  The development below embeds
those functions shallowly: process.env is an explicit Env record, the MD5
function from crypto-js is an abstract parameter, fetch outcomes are an
explicit per-attempt oracle, and the JSON.parse builtin applied to an opaque
request string is an explicit parse-result oracle.
-/

/-- The environment variables read by the two handlers (process.env). -/
structure Env where
  API_KEY : String
  LAST_FM_API : String
  LAST_FM_SK : String
  LAST_FM_SECRET : String
deriving DecidableEq

/-- Insert a string into an already sorted list, keeping it sorted.  The
comparison is the lexicographic order on the character sequences, which is
exactly the code-unit order JS Array.prototype.sort applies to the ASCII
parameter names of generateSecurePayload. -/
def insertSorted (x : String) : List String → List String
  | [] => [x]
  | y :: ys => if x.data ≤ y.data then x :: y :: ys else y :: insertSorted x ys

/-- Sorting of Object.keys(params) as done by .sort() in generateSecurePayload. -/
def sortKeys : List String → List String
  | [] => []
  | x :: xs => insertSorted x (sortKeys xs)

/-- The params object built inside generateSecurePayload, in the insertion
order of the JS object literal.  The timestamp number is stored via its
decimal string, matching how JS coerces it both in the signature
concatenation and in URLSearchParams. -/
def lastFmParams (track artist album method : String) (timestamp : Nat)
    (env : Env) : List (String × String) :=
  [("method", method), ("artist", artist), ("track", track), ("album", album),
   ("timestamp", toString timestamp), ("api_key", env.LAST_FM_API),
   ("sk", env.LAST_FM_SK)]

/-- The signatureString of generateSecurePayload:
Object.keys(params).sort().map(key plus value).join of the empty string. -/
def signatureString (params : List (String × String)) : String :=
  String.join ((sortKeys (params.map Prod.fst)).map
    (fun k => k ++ ((params.lookup k).getD "")))

/-- Shallow embedding of generateSecurePayload from both webhook files.  The
md5 argument abstracts the crypto-js md5 followed by .toString(), i.e. the
hex digest; nowMs abstracts Date.now().  The returned association list is the
URLSearchParams content in insertion order: the seven params, then api_sig,
then format. -/
def generateSecurePayload (md5 : String → String) (env : Env) (nowMs : Nat)
    (track artist album method : String) : List (String × String) :=
  let timestamp := nowMs / 1000
  let params := lastFmParams track artist album method timestamp env
  let signature := md5 (signatureString params ++ env.LAST_FM_SECRET)
  params ++ [("api_sig", signature), ("format", "json")]

/-- Modelled from the spec: sort the parameter pairs by name
lexicographically.  Written independently of the code-side signatureString,
which instead sorts the key list and looks each key back up. -/
def specInsertPair (p : String × String) :
    List (String × String) → List (String × String)
  | [] => [p]
  | q :: qs => if p.1.data ≤ q.1.data then p :: q :: qs else q :: specInsertPair p qs

/-- Modelled from the spec: insertion sort of parameter pairs by name. -/
def specSortPairs : List (String × String) → List (String × String)
  | [] => []
  | p :: ps => specInsertPair p (specSortPairs ps)

/-- Modelled from the spec: concatenate each parameter name immediately
followed by its value, in sorted name order, with no separators. -/
def specSignatureBase (params : List (String × String)) : String :=
  String.join ((specSortPairs params).map (fun p => p.1 ++ p.2))

/-- C1: generateSecurePayload signs by sorting the seven parameter names
lexicographically, concatenating name then value with no separators,
appending the shared secret, hashing with MD5, and returns the request body
holding the original seven parameters together with api_sig set to the hex
digest and a fixed format=json parameter. -/
theorem c1_generateSecurePayload_signature (md5 : String → String) (env : Env)
    (nowMs : Nat) (track artist album method : String) :
    generateSecurePayload md5 env nowMs track artist album method =
      lastFmParams track artist album method (nowMs / 1000) env ++
        [("api_sig",
          md5 (specSignatureBase
                (lastFmParams track artist album method (nowMs / 1000) env) ++
              env.LAST_FM_SECRET)),
         ("format", "json")] := by
  show _ = _
  rfl

/-- The outcome of one fetch attempt inside lastFmHook, as the surrounding
code observes it: the fetch promise rejects (network failure), the response
text fails to parse as JSON, or it parses with the given response.ok flag
and the optional numeric error field of the JSON body. -/
inductive Outcome where
  | fetchError : Outcome
  | parseError : Outcome
  | parsed (ok : Bool) (error : Option Int) : Outcome
deriving DecidableEq

/-- Observable behaviour of one lastFmHook call: how many fetch sends it
performs in total, the sleep durations in milliseconds in chronological
order, and the value the returned promise resolves to. -/
structure HookResult where
  sends : Nat
  sleeps : List Nat
  value : Nat
deriving DecidableEq

/-- Shallow embedding of lastFmHook from both webhook files.  The oracle f
gives the outcome of the fetch performed by the invocation whose tries
counter is n; each invocation sends exactly one request.  On a non-ok parsed
response with error code 11 or 16 and tries at most 5 the code sleeps 2000
milliseconds and recurses with tries incremented; with the retry budget
exhausted it logs and falls through.  On any other non-ok code the code
throws an object carrying the JSON response, which the inner catch block one
frame up immediately catches and logs.  Every path then reaches the final
return 1. -/
def lastFmHook (f : Nat → Outcome) (track artist album method : String)
    (tries : Nat) : HookResult :=
  match f tries with
  | .fetchError => ⟨1, [], 1⟩
  | .parseError => ⟨1, [], 1⟩
  | .parsed ok err =>
    if ok then ⟨1, [], 1⟩
    else if err = some 11 ∨ err = some 16 then
      if h : tries ≤ 5 then
        let r := lastFmHook f track artist album method (tries + 1)
        ⟨r.sends + 1, 2000 :: r.sleeps, r.value⟩
      else ⟨1, [], 1⟩
    else ⟨1, [], 1⟩
termination_by 6 - tries
decreasing_by omega

/-- Unfolding lemma: a transient error with retry budget left performs this
send, sleeps 2000 ms, and continues with tries incremented. -/
theorem lastFmHook_step_retry (f : Nat → Outcome) (t a al m : String)
    (tries : Nat) (c : Int) (hc : c = 11 ∨ c = 16)
    (hf : f tries = .parsed false (some c)) (ht : tries ≤ 5) :
    lastFmHook f t a al m tries =
      ⟨(lastFmHook f t a al m (tries + 1)).sends + 1,
       2000 :: (lastFmHook f t a al m (tries + 1)).sleeps,
       (lastFmHook f t a al m (tries + 1)).value⟩ := by
  conv_lhs => rw [lastFmHook]
  rw [hf]
  rcases hc with rfl | rfl <;> simp [ht]

/-- Unfolding lemma: a transient error with the budget exhausted stops. -/
theorem lastFmHook_step_maxed (f : Nat → Outcome) (t a al m : String)
    (tries : Nat) (c : Int) (hc : c = 11 ∨ c = 16)
    (hf : f tries = .parsed false (some c)) (ht : ¬ tries ≤ 5) :
    lastFmHook f t a al m tries = ⟨1, [], 1⟩ := by
  conv_lhs => rw [lastFmHook]
  rw [hf]
  rcases hc with rfl | rfl <;> simp [ht]

/-- When every attempt hits a transient error, a call starting j retries
before the budget runs out performs j + 1 sends with j sleeps. -/
theorem lastFmHook_all_transient (f : Nat → Outcome) (t a al m : String)
    (h : ∀ n, ∃ c, (c = 11 ∨ c = 16) ∧ f n = .parsed false (some c)) :
    ∀ j, j ≤ 5 →
      lastFmHook f t a al m (6 - j) = ⟨j + 1, List.replicate j 2000, 1⟩ := by
  intro j
  induction j with
  | zero =>
    intro _
    obtain ⟨c, hc, hf⟩ := h 6
    simpa using lastFmHook_step_maxed f t a al m 6 c hc hf (by omega)
  | succ j ih =>
    intro hj
    obtain ⟨c, hc, hf⟩ := h (6 - (j + 1))
    rw [lastFmHook_step_retry f t a al m (6 - (j + 1)) c hc hf (by omega)]
    have h6 : 6 - (j + 1) + 1 = 6 - j := by omega
    rw [h6, ih (by omega)]
    simp [List.replicate_succ]

/-- Every terminal path of lastFmHook resolves to the value 1. -/
theorem lastFmHook_value_one_aux (f : Nat → Outcome) (t a al m : String) :
    ∀ k tries, 6 ≤ tries + k → (lastFmHook f t a al m tries).value = 1 := by
  intro k
  induction k with
  | zero =>
    intro tries hk
    rcases hF : f tries with _ | _ | ⟨ok, err⟩ <;>
      conv_lhs => rw [lastFmHook]
    · rw [hF]
    · rw [hF]
    · rw [hF]
      cases ok
      · by_cases ht : err = some 11 ∨ err = some 16
        · by_cases h5 : tries ≤ 5
          · omega
          · simp [ht, h5]
        · simp [ht]
      · simp
  | succ k ih =>
    intro tries hk
    rcases hF : f tries with _ | _ | ⟨ok, err⟩ <;>
      conv_lhs => rw [lastFmHook]
    · rw [hF]
    · rw [hF]
    · rw [hF]
      cases ok
      · by_cases ht : err = some 11 ∨ err = some 16
        · by_cases h5 : tries ≤ 5
          · simp only [ht, h5]
            simp
            exact ih (tries + 1) (by omega)
          · simp [ht, h5]
        · simp [ht]
      · simp

/-- C2: if every send receives a non-ok response whose JSON error code is 11
or 16, the dispatcher started at the default tries value 1 performs exactly
6 sends in total, sleeping a fixed 2000 ms between consecutive sends with no
backoff growth, then stops and resolves normally to 1. -/
theorem c2_transient_retry_bound (f : Nat → Outcome) (t a al m : String)
    (h : ∀ n, ∃ c, (c = 11 ∨ c = 16) ∧ f n = .parsed false (some c)) :
    lastFmHook f t a al m 1 = ⟨6, [2000, 2000, 2000, 2000, 2000], 1⟩ :=
  lastFmHook_all_transient f t a al m h 5 (by omega)

/-- Outcome stream in which every attempt gets Last.fm error code 11. -/
def constTransient : Nat → Outcome := fun _ => Outcome.parsed false (some 11)

/-- Witness for C2 at a concrete always-transient outcome stream. -/
theorem c2_transient_retry_bound_witness :
    lastFmHook constTransient "Time" "Pink Floyd" "The Dark Side of the Moon"
        "track.scrobble" 1 = ⟨6, [2000, 2000, 2000, 2000, 2000], 1⟩ :=
  c2_transient_retry_bound constTransient _ _ _ _ (fun _ => ⟨11, Or.inl rfl, rfl⟩)

/-- C3: for every outcome stream, hence for ok responses, transient codes,
permanent codes, malformed bodies and network failures alike, and for every
starting tries value, lastFmHook resolves normally to the value 1; the throw
performed on a permanent error is caught one frame up inside the function
itself, so a caller never observes a rejection. -/
theorem c3_lastFmHook_always_returns_one (f : Nat → Outcome)
    (t a al m : String) (tries : Nat) :
    (lastFmHook f t a al m tries).value = 1 :=
  lastFmHook_value_one_aux f t a al m 6 tries (by omega)

/-- C7: a first send answered by a non-ok response whose error code is
neither 11 nor 16 makes the dispatcher perform exactly one send, no sleep,
and resolve normally to 1. -/
theorem c7_permanent_error_single_send (f : Nat → Outcome)
    (t a al m : String) (c : Int) (hf : f 1 = .parsed false (some c))
    (hperm : ¬(c = 11 ∨ c = 16)) :
    lastFmHook f t a al m 1 = ⟨1, [], 1⟩ := by
  conv_lhs => rw [lastFmHook]
  rw [hf]
  have h1 : c ≠ 11 := fun hx => hperm (Or.inl hx)
  have h2 : c ≠ 16 := fun hx => hperm (Or.inr hx)
  simp [h1, h2]

/-- Outcome stream in which every attempt gets permanent error code 6. -/
def constPermanent : Nat → Outcome := fun _ => Outcome.parsed false (some 6)

/-- Witness for C7 at a concrete permanent-error outcome stream. -/
theorem c7_permanent_error_single_send_witness :
    lastFmHook constPermanent "Money" "Pink Floyd" "The Dark Side of the Moon"
        "track.scrobble" 1 = ⟨1, [], 1⟩ :=
  c7_permanent_error_single_send constPermanent _ _ _ _ 6 rfl (by decide)

/-- The Metadata object of a well-formed Plex track payload. -/
structure PlexMetadata where
  type : String
  title : String
  grandparentTitle : String
  parentTitle : String
deriving DecidableEq

/-- A well-formed inbound Plex event payload. -/
structure PlexEvent where
  event : String
  Metadata : PlexMetadata
deriving DecidableEq

/-- Result of the external JSON.parse builtin on a payload string: either a
value whose Metadata member access raises a TypeError (any parsed value that
is not an object carrying a Metadata object), or a well-formed event. -/
inductive JsonValue where
  | notEvent : JsonValue
  | event (e : PlexEvent) : JsonValue
deriving DecidableEq

/-- The payload field of the form data in the pages-router handler:
formData.get returns null when the field is absent; the empty string is
falsy exactly like null in the missing-payload check; otherwise the
non-empty string is represented by its JSON.parse oracle result, with
Except.error for a string that is not valid JSON. -/
inductive FormPayload where
  | missing : FormPayload
  | emptyStr : FormPayload
  | content (parsed : Except Unit JsonValue) : FormPayload

/-- Inbound request as seen by the pages-router handler. -/
structure PagesRequest where
  method : String
  apikey : Option String
  payload : FormPayload

/-- Body of a response produced with NextResponse: a JSON string literal, the
acknowledgment object, a null body, or an object carrying body and status
members passed as the JSON body itself (the app-router file does this). -/
inductive RespBody where
  | text (s : String) : RespBody
  | ack (received : Bool) (event : String) : RespBody
  | empty : RespBody
  | statusObj (body : Option String) (status : Nat) : RespBody
deriving DecidableEq

/-- An HTTP response: the real HTTP status plus the body. -/
structure JsResponse where
  status : Nat
  body : RespBody
deriving DecidableEq

/-- One invocation of the dispatcher lastFmHook, with the arguments in the
order the handlers pass them: title, artist, album, method. -/
structure DispatchCall where
  track : String
  artist : String
  album : String
  method : String
deriving DecidableEq

/-- How a handler invocation ends: with a returned response, with an
exception escaping the handler, or by falling off the end of the function
and returning undefined instead of a response. -/
inductive HandlerOutcome where
  | response (r : JsResponse) : HandlerOutcome
  | thrown : HandlerOutcome
  | noResponse : HandlerOutcome
deriving DecidableEq

/-- A handler run: the dispatcher calls it makes, in order, and its end. -/
structure HandlerRun where
  dispatches : List DispatchCall
  outcome : HandlerOutcome
deriving DecidableEq

/-- The credential check both handlers perform: bang-apiKey is true when the
query parameter is absent or the empty string, and otherwise the value is
compared against process.env.API_KEY. -/
def apikeyRejected (env : Env) (k : Option String) : Bool :=
  match k with
  | none => true
  | some s => s == "" || s != env.API_KEY

namespace Pages

/-- Shallow embedding of the default handler of src/pages/api/webhook.js.
The non-POST branch executes new NextResponse.json, and NextResponse.json is
a static class method without a construct behaviour, so that line raises a
TypeError outside the try block and no response is returned; this is
modelled by the thrown outcome. -/
def handler (env : Env) (req : PagesRequest) : HandlerRun :=
  if req.method ≠ "POST" then
    ⟨[], .thrown⟩
  else if apikeyRejected env req.apikey then
    ⟨[], .response ⟨401, .text "Unauthorized"⟩⟩
  else
    match req.payload with
    | .missing =>
      ⟨[], .response ⟨400, .text "Webhook payload is missing from form data."⟩⟩
    | .emptyStr =>
      ⟨[], .response ⟨400, .text "Webhook payload is missing from form data."⟩⟩
    | .content (.error _) =>
      ⟨[], .response ⟨500, .text "Internal Server Error"⟩⟩
    | .content (.ok .notEvent) =>
      ⟨[], .response ⟨500, .text "Internal Server Error"⟩⟩
    | .content (.ok (.event e)) =>
      if e.Metadata.type ≠ "track" then
        ⟨[], .response ⟨400, .text "Not a track. Skipping"⟩⟩
      else
        match e.event with
        | "media.play" | "media.resume" =>
          ⟨[⟨e.Metadata.title, e.Metadata.grandparentTitle,
             e.Metadata.parentTitle, "track.updateNowPlaying"⟩],
           .response ⟨200, .ack true e.event⟩⟩
        | "media.scrobble" =>
          ⟨[⟨e.Metadata.title, e.Metadata.grandparentTitle,
             e.Metadata.parentTitle, "track.scrobble"⟩],
           .response ⟨200, .ack true e.event⟩⟩
        | "media.pause" | "media.stop" =>
          ⟨[], .response ⟨204, .empty⟩⟩
        | _ =>
          ⟨[], .response ⟨204, .empty⟩⟩

end Pages

/-- The body of an app-router request as request.json() delivers it: the
promise rejects on a body that is not valid JSON; the parsed value can be
falsy (null, the empty string, zero or false), a plain JSON object such as
the event itself, a truthy scalar (a non-zero number or true), a non-empty
string, or a JSON array (always truthy, the empty array included).  The
handler then hands this value to JSON.parse, which first applies ToString.
ToString of a plain object is a bracketed object tag that is never valid
JSON; ToString of a truthy scalar is its literal, which re-parses to the
same scalar, a value without a Metadata object; ToString of a string is the
string itself; ToString of an array joins the stringified elements with
commas, so for a singleton array holding a string it is exactly that
element.  String and array bodies are therefore represented by the
JSON.parse oracle result on their stringification. -/
inductive AppBody where
  | jsonError : AppBody
  | falsy : AppBody
  | objEvent (e : PlexEvent) : AppBody
  | scalarTruthy : AppBody
  | strPayload (parsed : Except Unit JsonValue) : AppBody
  | arrPayload (parsed : Except Unit JsonValue) : AppBody

/-- Inbound request as seen by the app-router handlers. -/
structure AppRequest where
  apikey : Option String
  body : AppBody

namespace App

/-- The code of POST of src/app/api/webhook/route.js from the line that
checks Metadata.type onwards, reached whenever JSON.parse succeeded with a
well-formed event, from a string body and from an array body alike.  After
the play, resume and scrobble cases break out of the switch the function
ends without a return statement: the curly-brace acknowledgment return that
follows the default case is unreachable, so the handler produces no
response on those paths. -/
def handleParsedEvent (e : PlexEvent) : HandlerRun :=
  if e.Metadata.type ≠ "track" then
    ⟨[], .response ⟨200, .statusObj none 204⟩⟩
  else
    match e.event with
    | "media.play" | "media.resume" =>
      ⟨[⟨e.Metadata.title, e.Metadata.grandparentTitle,
         e.Metadata.parentTitle, "track.updateNowPlaying"⟩], .noResponse⟩
    | "media.scrobble" =>
      ⟨[⟨e.Metadata.title, e.Metadata.grandparentTitle,
         e.Metadata.parentTitle, "track.scrobble"⟩], .noResponse⟩
    | "media.pause" | "media.stop" =>
      ⟨[], .response ⟨200, .statusObj none 204⟩⟩
    | _ =>
      ⟨[], .response ⟨200, .statusObj none 204⟩⟩

/-- Shallow embedding of POST of src/app/api/webhook/route.js.  Every
NextResponse.json call in this file passes a single object that carries the
intended status as a member of the JSON body, so the real HTTP status is the
default 200 in every returned response.  JSON.parse applied to the result of
request.json() stringifies it first: a plain object becomes a string that is
never valid JSON, so that path throws and lands in the catch block; a truthy
scalar re-parses to itself and then fails the Metadata member access, also
landing in the catch block; a string or array body proceeds by whatever its
stringification parses to. -/
def POST (env : Env) (req : AppRequest) : HandlerRun :=
  if apikeyRejected env req.apikey then
    ⟨[], .response ⟨200, .statusObj (some "Unauthorized") 401⟩⟩
  else
    match req.body with
    | .jsonError =>
      ⟨[], .response ⟨200, .statusObj (some "Internal Server error") 500⟩⟩
    | .falsy =>
      ⟨[], .response
        ⟨200, .statusObj (some "Webhook payload is missing from form data.") 400⟩⟩
    | .objEvent _ =>
      ⟨[], .response ⟨200, .statusObj (some "Internal Server error") 500⟩⟩
    | .scalarTruthy =>
      ⟨[], .response ⟨200, .statusObj (some "Internal Server error") 500⟩⟩
    | .strPayload (.error _) =>
      ⟨[], .response ⟨200, .statusObj (some "Internal Server error") 500⟩⟩
    | .strPayload (.ok .notEvent) =>
      ⟨[], .response ⟨200, .statusObj (some "Internal Server error") 500⟩⟩
    | .strPayload (.ok (.event e)) => handleParsedEvent e
    | .arrPayload (.error _) =>
      ⟨[], .response ⟨200, .statusObj (some "Internal Server error") 500⟩⟩
    | .arrPayload (.ok .notEvent) =>
      ⟨[], .response ⟨200, .statusObj (some "Internal Server error") 500⟩⟩
    | .arrPayload (.ok (.event e)) => handleParsedEvent e

/-- Shallow embedding of GET of src/app/api/webhook/route.js: it returns
NextResponse.json with the object carrying Invalid Method and 405 as the
JSON body and no init argument, hence HTTP status 200. -/
def GET (_env : Env) (_req : AppRequest) : HandlerRun :=
  ⟨[], .response ⟨200, .statusObj (some "Invalid Method") 405⟩⟩

end App

/-- A concrete environment used for witnesses and concrete evaluations. -/
def envW : Env := ⟨"plexsecret", "lfmapikey", "lfmsessionkey", "lfmsharedsecret"⟩

/-- A concrete media.play track event. -/
def playEventW : PlexEvent := ⟨"media.play", ⟨"track", "T", "A", "B"⟩⟩

/-- The media.resume track event of the C5 scenario. -/
def resumeEventW : PlexEvent := ⟨"media.resume", ⟨"track", "A", "B", "C"⟩⟩

/-- A concrete scrobble track event. -/
def scrobbleEventW : PlexEvent := ⟨"media.scrobble", ⟨"track", "T", "A", "B"⟩⟩

/-- A concrete movie event. -/
def movieEventW : PlexEvent := ⟨"media.play", ⟨"movie", "T", "A", "B"⟩⟩

/-- C4: on an authorized POST carrying a track event, play and resume events
invoke the dispatcher exactly once with method track.updateNowPlaying, and
scrobble events exactly once with track.scrobble, with title, artist and
album copied verbatim from Metadata.title, Metadata.grandparentTitle and
Metadata.parentTitle; no other dispatch happens on that request.  Stated for
the pages handler and for the app handler on the double-encoded string body
that reaches its classification switch. -/
theorem c4_track_event_dispatch (env : Env) (key : String) (e : PlexEvent)
    (hkey : apikeyRejected env (some key) = false)
    (htype : e.Metadata.type = "track") :
    ((e.event = "media.play" ∨ e.event = "media.resume") →
      (Pages.handler env ⟨"POST", some key, .content (.ok (.event e))⟩).dispatches =
          [⟨e.Metadata.title, e.Metadata.grandparentTitle, e.Metadata.parentTitle,
            "track.updateNowPlaying"⟩] ∧
      (App.POST env ⟨some key, .strPayload (.ok (.event e))⟩).dispatches =
          [⟨e.Metadata.title, e.Metadata.grandparentTitle, e.Metadata.parentTitle,
            "track.updateNowPlaying"⟩]) ∧
    (e.event = "media.scrobble" →
      (Pages.handler env ⟨"POST", some key, .content (.ok (.event e))⟩).dispatches =
          [⟨e.Metadata.title, e.Metadata.grandparentTitle, e.Metadata.parentTitle,
            "track.scrobble"⟩] ∧
      (App.POST env ⟨some key, .strPayload (.ok (.event e))⟩).dispatches =
          [⟨e.Metadata.title, e.Metadata.grandparentTitle, e.Metadata.parentTitle,
            "track.scrobble"⟩]) := by
  obtain ⟨ev, ⟨ty, ti, ar, al⟩⟩ := e
  subst htype
  constructor
  · intro hev
    rcases hev with hev | hev <;> subst hev <;>
      exact ⟨by simp [Pages.handler, hkey], by simp [App.POST, App.handleParsedEvent, hkey]⟩
  · intro hev
    subst hev
    exact ⟨by simp [Pages.handler, hkey], by simp [App.POST, App.handleParsedEvent, hkey]⟩

/-- Witness for C4 at a concrete play event and environment. -/
theorem c4_track_event_dispatch_witness :
    (Pages.handler envW
        ⟨"POST", some "plexsecret", .content (.ok (.event playEventW))⟩).dispatches =
      [⟨"T", "A", "B", "track.updateNowPlaying"⟩] ∧
    (App.POST envW ⟨some "plexsecret", .strPayload (.ok (.event playEventW))⟩).dispatches =
      [⟨"T", "A", "B", "track.updateNowPlaying"⟩] :=
  (c4_track_event_dispatch envW "plexsecret" playEventW rfl rfl).1 (Or.inl rfl)

/-- C5: evaluation of both handlers at the scenario input, an authorized
media.resume track event with title A, artist B, album C.  The pages handler
dispatches once with track.updateNowPlaying and answers HTTP 200 with the
received-true acknowledgment carrying the event name, as the claim states.
The app handler performs the same single dispatch but then breaks out of the
switch and falls off the end of the function: the acknowledgment return
placed after the default case is unreachable, so no response is produced on
the play, resume and scrobble paths, refuting the claim for that variant. -/
theorem c5_resume_scenario_eval :
    Pages.handler envW
        ⟨"POST", some "plexsecret", .content (.ok (.event resumeEventW))⟩ =
      ⟨[⟨"A", "B", "C", "track.updateNowPlaying"⟩],
       .response ⟨200, .ack true "media.resume"⟩⟩ ∧
    App.POST envW ⟨some "plexsecret", .strPayload (.ok (.event resumeEventW))⟩ =
      ⟨[⟨"A", "B", "C", "track.updateNowPlaying"⟩], .noResponse⟩ :=
  ⟨rfl, rfl⟩

/-- C6: evaluation of both handlers at wrong-credential and at
missing-credential requests.  Neither variant ever invokes the dispatcher,
and the pages handler answers HTTP 401; but the app handler passes the 401
only inside the JSON body, a single argument to NextResponse.json, so its
real HTTP status is the default 200, refuting the claimed HTTP 401 for that
variant. -/
theorem c6_unauthorized_eval :
    Pages.handler envW ⟨"POST", some "wrongkey", .missing⟩ =
      ⟨[], .response ⟨401, .text "Unauthorized"⟩⟩ ∧
    Pages.handler envW ⟨"POST", none, .missing⟩ =
      ⟨[], .response ⟨401, .text "Unauthorized"⟩⟩ ∧
    App.POST envW ⟨some "wrongkey", .falsy⟩ =
      ⟨[], .response ⟨200, .statusObj (some "Unauthorized") 401⟩⟩ ∧
    App.POST envW ⟨none, .falsy⟩ =
      ⟨[], .response ⟨200, .statusObj (some "Unauthorized") 401⟩⟩ :=
  ⟨rfl, rfl, rfl, rfl⟩

/-- C8: on an authorized request whose parsed payload has a Metadata type
other than track, both handlers return their no-op response without any
dispatcher call: the pages handler a 400 with the skipping message, the app
handler the JSON object carrying 204 as a body member. -/
theorem c8_non_track_no_dispatch (env : Env) (key : String) (e : PlexEvent)
    (hkey : apikeyRejected env (some key) = false)
    (htype : e.Metadata.type ≠ "track") :
    Pages.handler env ⟨"POST", some key, .content (.ok (.event e))⟩ =
      ⟨[], .response ⟨400, .text "Not a track. Skipping"⟩⟩ ∧
    App.POST env ⟨some key, .strPayload (.ok (.event e))⟩ =
      ⟨[], .response ⟨200, .statusObj none 204⟩⟩ := by
  exact ⟨by simp [Pages.handler, hkey, htype], by simp [App.POST, App.handleParsedEvent, hkey, htype]⟩

/-- Witness for C8 at a concrete movie event. -/
theorem c8_non_track_no_dispatch_witness :
    Pages.handler envW ⟨"POST", some "plexsecret", .content (.ok (.event movieEventW))⟩ =
      ⟨[], .response ⟨400, .text "Not a track. Skipping"⟩⟩ ∧
    App.POST envW ⟨some "plexsecret", .strPayload (.ok (.event movieEventW))⟩ =
      ⟨[], .response ⟨200, .statusObj none 204⟩⟩ :=
  c8_non_track_no_dispatch envW "plexsecret" movieEventW rfl (by decide)

/-- C9: evaluation of the non-POST paths.  The dispatcher is never invoked,
but neither variant produces an HTTP 405 response: the pages handler
evaluates new NextResponse.json, and a static class method has no construct
behaviour, so a TypeError escapes the handler; the app GET handler returns
NextResponse.json with the 405 carried only inside the JSON body and no init
argument, hence HTTP status 200. -/
theorem c9_method_not_allowed_eval :
    Pages.handler envW ⟨"GET", some "plexsecret", .missing⟩ = ⟨[], .thrown⟩ ∧
    App.GET envW ⟨some "plexsecret", .falsy⟩ =
      ⟨[], .response ⟨200, .statusObj (some "Invalid Method") 405⟩⟩ :=
  ⟨rfl, rfl⟩

/-- C10, counterexample to the claim as stated: it is not true that event
classification is reached only when the body is a JSON string containing the
event JSON.  A singleton JSON array wrapping the event JSON string is truthy,
its ToString is exactly its element, so JSON.parse re-parses the event and
the dispatcher runs, at the concrete authorized request with the media.resume
array body; yet that body is not a strPayload. -/
theorem c10_array_body_counterexample :
    ¬ (∀ b : AppBody, (App.POST envW ⟨some "plexsecret", b⟩).dispatches ≠ [] →
        ∃ v : PlexEvent, b = .strPayload (.ok (.event v))) := by
  intro h
  obtain ⟨v, hv⟩ :=
    h (.arrPayload (.ok (.event resumeEventW))) (by decide)
  exact AppBody.noConfusion hv

/-- C10 as amended: in the app-router variant an authorized request whose
body is the event sent directly as a JSON object never reaches
classification: JSON.parse applied to the object returned by request.json()
throws after stringification, the top-level catch answers with the
internal-error response, and the dispatcher is not invoked; moreover any
request on which the dispatcher does run has a body whose stringification
re-parses to the event: either a JSON string whose contents parse to an
event (a double-encoded payload) or a JSON array whose comma-joined
stringification parses to an event, such as a singleton array wrapping the
double-encoded event string. -/
theorem c10_app_double_parse (env : Env) (key : String) (e : PlexEvent)
    (hkey : apikeyRejected env (some key) = false) :
    App.POST env ⟨some key, .objEvent e⟩ =
      ⟨[], .response ⟨200, .statusObj (some "Internal Server error") 500⟩⟩ ∧
    ∀ b : AppBody, (App.POST env ⟨some key, b⟩).dispatches ≠ [] →
      (∃ v : PlexEvent, b = .strPayload (.ok (.event v))) ∨
      (∃ v : PlexEvent, b = .arrPayload (.ok (.event v))) := by
  constructor
  · simp [App.POST, hkey]
  · intro b hb
    rcases b with _ | _ | e2 | _ | p | p
    · exfalso; exact hb (by simp [App.POST, hkey])
    · exfalso; exact hb (by simp [App.POST, hkey])
    · exfalso; exact hb (by simp [App.POST, hkey])
    · exfalso; exact hb (by simp [App.POST, hkey])
    · rcases p with _ | v
      · exfalso; exact hb (by simp [App.POST, hkey])
      · rcases v with _ | v2
        · exfalso; exact hb (by simp [App.POST, hkey])
        · exact Or.inl ⟨v2, rfl⟩
    · rcases p with _ | v
      · exfalso; exact hb (by simp [App.POST, hkey])
      · rcases v with _ | v2
        · exfalso; exact hb (by simp [App.POST, hkey])
        · exact Or.inr ⟨v2, rfl⟩

/-- Witness for C10 at a concrete direct-object body. -/
theorem c10_app_double_parse_witness :
    App.POST envW ⟨some "plexsecret", .objEvent resumeEventW⟩ =
      ⟨[], .response ⟨200, .statusObj (some "Internal Server error") 500⟩⟩ :=
  (c10_app_double_parse envW "plexsecret" resumeEventW rfl).1
